import Mathlib

/-!
Verification of the trading-strategy backtesting core of StockCheck.

The development shallowly embeds, over `ℚ`:
  * the indicator engine of `src/dayTrading/indicators.py`
    (MinMax, BollingerBands, RSI, MACD);
  * the position / portfolio / simulation machinery of
    `src/dayTrading/dayTrading.py`;
  * the performance metric of `src/strategy_tester.py`.

pandas conventions are modelled explicitly: a value a rolling window has
not yet filled is a missing value (`Option.none`, pandas NaN) and every
comparison against a missing value is `false`; float divisions that the
RSI computation performs are modelled on an extended value type `FVal`
with IEEE-style infinities and NaN.
-/

namespace StockCheck

/-! ### Missing-value (NaN) arithmetic over `Option ℚ` -/

/-- Strict less-than on series entries: any comparison with a missing
value (pandas NaN) is false. -/
def oLt : Option ℚ → Option ℚ → Bool
  | some a, some b => decide (a < b)
  | _, _ => false

/-- Strict greater-than on series entries, false on missing values. -/
def oGt (a b : Option ℚ) : Bool := oLt b a

/-- Addition propagating missing values. -/
def oAdd : Option ℚ → Option ℚ → Option ℚ
  | some a, some b => some (a + b)
  | _, _ => none

/-- Subtraction propagating missing values. -/
def oSub : Option ℚ → Option ℚ → Option ℚ
  | some a, some b => some (a - b)
  | _, _ => none

/-- Scaling by a constant, propagating missing values. -/
def oScale (c : ℚ) : Option ℚ → Option ℚ
  | some a => some (c * a)
  | none => none

/-! ### Rolling windows and the EMA -/

/-- The trailing window of (at most) `w` samples ending at index `i`,
most recent sample first: the same multiset of samples as the pandas
`rolling(w)` window at row `i`. -/
def window (w : ℕ) (xs : List ℚ) (i : ℕ) : List ℚ :=
  ((xs.take (i + 1)).reverse).take w

/-- The minimum of a list of samples, `none` on the empty list. -/
def listMin : List ℚ → Option ℚ
  | [] => none
  | x :: xs =>
      some (match listMin xs with
        | none => x
        | some m => min x m)

/-- The maximum of a list of samples, `none` on the empty list. -/
def listMax : List ℚ → Option ℚ
  | [] => none
  | x :: xs =>
      some (match listMax xs with
        | none => x
        | some m => max x m)

/-- pandas `rolling(w).min()` at row `i`: defined once the window is
complete, missing before that. -/
def rollMin (w : ℕ) (xs : List ℚ) (i : ℕ) : Option ℚ :=
  if w ≤ i + 1 ∧ i < xs.length then listMin (window w xs i) else none

/-- pandas `rolling(w).max()` at row `i`. -/
def rollMax (w : ℕ) (xs : List ℚ) (i : ℕ) : Option ℚ :=
  if w ≤ i + 1 ∧ i < xs.length then listMax (window w xs i) else none

/-- pandas `rolling(w).mean()` at row `i` of a series with no missing
entries. -/
def rollMean (w : ℕ) (xs : List ℚ) (i : ℕ) : Option ℚ :=
  if 1 ≤ w ∧ w ≤ i + 1 ∧ i < xs.length then
    some ((window w xs i).sum / (w : ℚ))
  else none

/-- Exact square root on perfect rational squares, `0` elsewhere. It
stands for the real-valued square root that pandas' `std` takes of the
(rational) sample variance; every theorem below either evaluates it on a
perfect square or does not depend on its value. -/
def sqrtQ (q : ℚ) : ℚ :=
  let n := q.num.toNat.sqrt
  let d := q.den.sqrt
  if (n * n : ℤ) = q.num ∧ d * d = q.den then (n : ℚ) / (d : ℚ) else 0

/-- The sample variance (ddof = 1) that pandas' `rolling(w).std()`
computes before its square root. -/
def sampleVar (l : List ℚ) : ℚ :=
  let m := l.sum / (l.length : ℚ)
  (l.map (fun x => (x - m) ^ 2)).sum / ((l.length : ℚ) - 1)

/-- pandas `rolling(w).std()` at row `i`: missing until the window is
complete, and missing for `w = 1` (zero degrees of freedom yield NaN). -/
def rollStd (w : ℕ) (xs : List ℚ) (i : ℕ) : Option ℚ :=
  if 2 ≤ w ∧ w ≤ i + 1 ∧ i < xs.length then
    some (sqrtQ (sampleVar (window w xs i)))
  else none

/-- pandas `ewm(span, adjust=False)` smoothing factor `2 / (span + 1)`. -/
def alphaOf (span : ℕ) : ℚ := 2 / ((span : ℚ) + 1)

/-- The tail of the EMA recurrence: `e_i = (1 - a) * e_(i-1) + a * x_i`. -/
def emaFrom (a prev : ℚ) : List ℚ → List ℚ
  | [] => []
  | x :: xs =>
      let e := (1 - a) * prev + a * x
      e :: emaFrom a e xs

/-- pandas `ewm(span, adjust=False).mean()`: `ema[0] = x[0]` and
`ema[i] = (1 - a) * ema[i-1] + a * x[i]`. -/
def emaList (a : ℚ) : List ℚ → List ℚ
  | [] => []
  | x :: xs => x :: emaFrom a x xs

/-- The EMA entry at row `i` for a given span. -/
def emaAt (span : ℕ) (xs : List ℚ) (i : ℕ) : Option ℚ :=
  (emaList (alphaOf span) xs).get? i

/-! ### IEEE-style extended values for the RSI float divisions -/

/-- An IEEE-754-style extended value: a rational, an infinity or NaN;
models the float results of the divisions in `RSI.get`. -/
inductive FVal where
  | nan : FVal
  | inf : FVal
  | ninf : FVal
  | val : ℚ → FVal
deriving DecidableEq

/-- IEEE negation. -/
def FVal.fneg : FVal → FVal
  | .nan => .nan
  | .inf => .ninf
  | .ninf => .inf
  | .val a => .val (-a)

/-- IEEE addition (opposite infinities give NaN). -/
def FVal.fadd : FVal → FVal → FVal
  | .nan, _ => .nan
  | _, .nan => .nan
  | .inf, .ninf => .nan
  | .ninf, .inf => .nan
  | .inf, _ => .inf
  | _, .inf => .inf
  | .ninf, _ => .ninf
  | _, .ninf => .ninf
  | .val a, .val b => .val (a + b)

/-- IEEE subtraction. -/
def FVal.fsub (a b : FVal) : FVal := a.fadd b.fneg

/-- IEEE division as numpy performs it: `x / 0` is a signed infinity for
`x ≠ 0` and NaN for `x = 0`; a finite value over an infinity is `0`. -/
def FVal.fdiv : FVal → FVal → FVal
  | .nan, _ => .nan
  | _, .nan => .nan
  | .inf, .inf => .nan
  | .inf, .ninf => .nan
  | .ninf, .inf => .nan
  | .ninf, .ninf => .nan
  | .inf, .val b => if b < 0 then .ninf else .inf
  | .ninf, .val b => if b < 0 then .inf else .ninf
  | .val _, .inf => .val 0
  | .val _, .ninf => .val 0
  | .val a, .val b =>
      if b = 0 then (if 0 < a then .inf else if a < 0 then .ninf else .nan)
      else .val (a / b)

/-- IEEE strict less-than: any comparison with NaN is false. -/
def FVal.fLt : FVal → FVal → Bool
  | .nan, _ => false
  | _, .nan => false
  | .inf, _ => false
  | .ninf, .ninf => false
  | .ninf, _ => true
  | .val _, .inf => true
  | .val _, .ninf => false
  | .val a, .val b => decide (a < b)

/-- Division of two series entries; a missing operand gives NaN. -/
def oDivF : Option ℚ → Option ℚ → FVal
  | some a, some b => FVal.fdiv (.val a) (.val b)
  | _, _ => .nan

/-! ### The indicator engine (`src/dayTrading/indicators.py`) -/

/-- The `MinMax` indicator configuration. -/
structure MinMax where
  buy_window : ℕ
  sell_window : ℕ

/-- `MinMax.get` buy column: `close < close.rolling(buy_window).min()`. -/
def MinMax.buyAt (c : MinMax) (prices : List ℚ) (i : ℕ) : Bool :=
  oLt (prices.get? i) (rollMin c.buy_window prices i)

/-- `MinMax.get` sell column: `close > close.rolling(sell_window).max()`. -/
def MinMax.sellAt (c : MinMax) (prices : List ℚ) (i : ℕ) : Bool :=
  oGt (prices.get? i) (rollMax c.sell_window prices i)

/-- The `BollingerBands` indicator configuration. -/
structure BollingerBands where
  buy_window : ℕ
  sell_window : ℕ
  lower_band_multiplier : ℚ
  upper_band_multiplier : ℚ

/-- `BollingerBands.get` upper band, exactly as the source computes it:
the sell-window EMA plus `lower_band_multiplier` (sic) times the
sell-window rolling std. -/
def BollingerBands.upperBand (c : BollingerBands) (prices : List ℚ) (i : ℕ) : Option ℚ :=
  oAdd (emaAt c.sell_window prices i)
    (oScale c.lower_band_multiplier (rollStd c.sell_window prices i))

/-- `BollingerBands.get` lower band, exactly as the source computes it:
the buy-window EMA minus `upper_band_multiplier` (sic) times the
buy-window rolling std. -/
def BollingerBands.lowerBand (c : BollingerBands) (prices : List ℚ) (i : ℕ) : Option ℚ :=
  oSub (emaAt c.buy_window prices i)
    (oScale c.upper_band_multiplier (rollStd c.buy_window prices i))

/-- `BollingerBands.get` buy column: `close < lower_band`. -/
def BollingerBands.buyAt (c : BollingerBands) (prices : List ℚ) (i : ℕ) : Bool :=
  oLt (prices.get? i) (c.lowerBand prices i)

/-- `BollingerBands.get` sell column: `close > upper_band`. -/
def BollingerBands.sellAt (c : BollingerBands) (prices : List ℚ) (i : ℕ) : Bool :=
  oGt (prices.get? i) (c.upperBand prices i)

/-- Modelled from the spec: the upper band as the specification words it,
`ema_sell + upper_mult * std_sell`. -/
def BollingerBands.upperBandSpec (c : BollingerBands) (prices : List ℚ) (i : ℕ) : Option ℚ :=
  oAdd (emaAt c.sell_window prices i)
    (oScale c.upper_band_multiplier (rollStd c.sell_window prices i))

/-- Modelled from the spec: the sell signal as the specification words
it, `close > ema_sell + upper_mult * std_sell`. -/
def BollingerBands.sellAtSpec (c : BollingerBands) (prices : List ℚ) (i : ℕ) : Bool :=
  oGt (prices.get? i) (c.upperBandSpec prices i)

/-- The `RSI` indicator configuration. -/
structure RSI where
  window : ℕ
  buy_threshold : ℚ
  sell_threshold : ℚ

/-- `prices.diff()`: missing at index 0. -/
def diffList (prices : List ℚ) : List (Option ℚ) :=
  (List.range prices.length).map fun i =>
    if i = 0 then none else oSub (prices.get? i) (prices.get? (i - 1))

/-- `price_change.where(price_change > 0, 0)`: the change where it is
positive, else `0`. At index 0 the change is NaN, `NaN > 0` is false,
so the entry is `0`. -/
def gains (prices : List ℚ) : List ℚ :=
  (diffList prices).map fun d =>
    match d with
    | some q => if 0 < q then q else 0
    | none => 0

/-- `-price_change.where(price_change < 0, 0)`: minus the change where
it is negative, else `0` (index 0 as in `gains`). -/
def losses (prices : List ℚ) : List ℚ :=
  (diffList prices).map fun d =>
    match d with
    | some q => if q < 0 then -q else 0
    | none => 0

/-- `RSI.get` rsi column at row `i`:
`100 - 100 / (1 + avg_gain / avg_loss)` in float arithmetic. -/
def RSI.rsiAt (c : RSI) (prices : List ℚ) (i : ℕ) : FVal :=
  let rs := oDivF (rollMean c.window (gains prices) i)
                  (rollMean c.window (losses prices) i)
  (FVal.val 100).fsub ((FVal.val 100).fdiv ((FVal.val 1).fadd rs))

/-- `RSI.get` buy column: `rsi < buy_threshold`. -/
def RSI.buyAt (c : RSI) (prices : List ℚ) (i : ℕ) : Bool :=
  (c.rsiAt prices i).fLt (.val c.buy_threshold)

/-- `RSI.get` sell column: `rsi > sell_threshold`. -/
def RSI.sellAt (c : RSI) (prices : List ℚ) (i : ℕ) : Bool :=
  (FVal.val c.sell_threshold).fLt (c.rsiAt prices i)

/-- The `MACD` indicator configuration. -/
structure MACD where
  short_window : ℕ
  long_window : ℕ
  signal_window : ℕ

/-- `MACD.get` macd column: short-span EMA minus long-span EMA. -/
def MACD.macdList (c : MACD) (prices : List ℚ) : List ℚ :=
  List.zipWith (fun a b => a - b)
    (emaList (alphaOf c.short_window) prices)
    (emaList (alphaOf c.long_window) prices)

/-- `MACD.get` signal column: EMA of the macd column. -/
def MACD.signalList (c : MACD) (prices : List ℚ) : List ℚ :=
  emaList (alphaOf c.signal_window) (c.macdList prices)

/-- `MACD.get` buy column: `macd > signal`. -/
def MACD.buyAt (c : MACD) (prices : List ℚ) (i : ℕ) : Bool :=
  oGt ((c.macdList prices).get? i) ((c.signalList prices).get? i)

/-- `MACD.get` sell column: `macd < signal`. -/
def MACD.sellAt (c : MACD) (prices : List ℚ) (i : ℕ) : Bool :=
  oLt ((c.macdList prices).get? i) ((c.signalList prices).get? i)

/-! ### Positions and the portfolio (`src/dayTrading/dayTrading.py`) -/

/-- The static simulation parameters (`StaticParams`, price data kept
separate). -/
structure StaticParams where
  initial_cash : ℚ
  min_cash : ℚ
  leverage : ℤ
  trade_cooldown : ℕ

/-- The per-strategy parameters (`DynamicParams`, the indicator kept
separate). -/
structure DynamicParams where
  stop_loss_pct : ℚ
  take_profit_pct : ℚ
  investment_pct : ℚ

/-- A leveraged position (`Position`). -/
structure Position where
  is_long : Bool
  open_price : ℚ
  size : ℚ
  initial_margin : ℚ
  upper_bound_price : ℚ
  lower_bound_price : ℚ
deriving DecidableEq

/-- `Position.__init__(is_long, cash, open_price, stop_loss_pct,
take_profit_pct, leverage)`. -/
def mkPosition (is_long : Bool) (cash open_price stop_loss_pct take_profit_pct : ℚ)
    (leverage : ℤ) : Position where
  is_long := is_long
  open_price := open_price
  size := cash * (leverage : ℚ)
  initial_margin := cash
  upper_bound_price :=
    open_price * (1 + (if is_long then take_profit_pct else stop_loss_pct))
  lower_bound_price :=
    open_price * (1 - (if is_long then stop_loss_pct else take_profit_pct))

/-- `Position.try_close(price)`: `None` while the price is strictly
inside the bounds, otherwise the realized cash value. -/
def Position.try_close (p : Position) (price : ℚ) : Option ℚ :=
  if p.lower_bound_price < price ∧ price < p.upper_bound_price then none
  else
    some (p.initial_margin +
      p.size * ((price - p.open_price) / p.open_price) *
        (if p.is_long then 1 else -1))

/-- `Portfolio` state: cash and the open positions in insertion order. -/
structure Portfolio where
  cash : ℚ
  positions : List Position
deriving DecidableEq

/-- The loop of `Portfolio.tick`. CPython's `for p in self.positions`
walks the list by an index that advances once per iteration, while
`self.positions.remove(p)` deletes the current element (removal is by
object identity and every element of the list is a distinct object), so
a removal shifts the remaining elements one slot left under an index
that still advances. `fuel` only bounds the iteration count: the index
grows by one each pass and the list never grows, so an initial fuel of
`ps.length` is never exhausted. -/
def tickAux (price : ℚ) : ℕ → ℚ → List Position → ℕ → ℚ × List Position
  | 0, cash, ps, _ => (cash, ps)
  | fuel + 1, cash, ps, i =>
      if h : i < ps.length then
        match (ps.get ⟨i, h⟩).try_close price with
        | some c => tickAux price fuel (cash + c) (ps.eraseIdx i) (i + 1)
        | none => tickAux price fuel cash ps (i + 1)
      else (cash, ps)

/-- `Portfolio.tick(price)`. -/
def Portfolio.tick (pf : Portfolio) (price : ℚ) : Portfolio :=
  let r := tickAux price pf.positions.length pf.cash pf.positions 0
  { cash := r.1, positions := r.2 }

/-- `Portfolio.open_position(is_long, open_price)`. -/
def Portfolio.open_position (pf : Portfolio) (sp : StaticParams) (dp : DynamicParams)
    (is_long : Bool) (open_price : ℚ) : Portfolio :=
  if pf.cash ≤ sp.min_cash then pf
  else
    let investment_cash := pf.cash * dp.investment_pct
    { cash := pf.cash - investment_cash
      positions := pf.positions ++
        [mkPosition is_long investment_cash open_price
          dp.stop_loss_pct dp.take_profit_pct sp.leverage] }

/-! ### The simulation driver (`Simulation.run`) -/

/-- The mutable state of `Simulation.run`: the portfolio and the
cooldown counter. -/
structure SimState where
  portfolio : Portfolio
  cooldown : ℕ
deriving DecidableEq

/-- One iteration of the loop in `Simulation.run`, at a tick carrying
`(price, buy, sell)`. `LONG = True` opens a long position, `SHORT =
False` a short one. -/
def simStep (sp : StaticParams) (dp : DynamicParams) (st : SimState)
    (t : ℚ × Bool × Bool) : SimState :=
  let pf := st.portfolio.tick t.1
  if st.cooldown = 0 then
    let pf1 := if t.2.1 then pf.open_position sp dp true t.1 else pf
    let pf2 := if t.2.2 then pf1.open_position sp dp false t.1 else pf1
    { portfolio := pf2, cooldown := sp.trade_cooldown }
  else
    { portfolio := pf, cooldown := st.cooldown - 1 }

/-- The loop of `Simulation.run` over the remaining ticks. -/
def runSim (sp : StaticParams) (dp : DynamicParams) :
    List (ℚ × Bool × Bool) → SimState → SimState
  | [], st => st
  | t :: ts, st => runSim sp dp ts (simStep sp dp st t)

/-- The state entering tick `n`: the first `n` ticks processed. -/
def stateAt (sp : StaticParams) (dp : DynamicParams) (ts : List (ℚ × Bool × Bool))
    (st0 : SimState) (n : ℕ) : SimState :=
  runSim sp dp (ts.take n) st0

/-- `Simulation.run`: process every tick starting from the initial
portfolio and a zero cooldown, and return the final cash balance. -/
def runSimulation (sp : StaticParams) (dp : DynamicParams)
    (ts : List (ℚ × Bool × Bool)) : ℚ :=
  (runSim sp dp ts ⟨⟨sp.initial_cash, []⟩, 0⟩).portfolio.cash

/-! ### The strategy tester's performance metric (`src/strategy_tester.py`) -/

namespace Tester

/-- The relevant state of `strategy_tester.Portfolio` when
`performance()` is called. -/
structure Portfolio where
  initial_cash : ℚ
  cash : ℚ
  stock : ℚ
  months : ℕ
  monthly_deposit : ℚ
  start_price : ℚ
  current_price : ℚ

/-- `Portfolio.performance()` exactly as the source computes it. -/
def Portfolio.performance (p : Portfolio) : ℚ :=
  let profit_cash := p.cash + p.stock * p.current_price - p.monthly_deposit * (p.months : ℚ)
  let profit := 100 * profit_cash / p.initial_cash
  let baseline := 100 * p.current_price / p.start_price
  100 * profit / baseline - 100

/-- Modelled from the spec: the claim's literal performance formula
`100 * (final_cash_adjusted_for_deposits / initial_cash) /
(100 * last_price / first_price) - 100`, with
`final_cash_adjusted_for_deposits` the final cash minus
`monthly_deposit * months`. -/
def Portfolio.performanceClaim (p : Portfolio) : ℚ :=
  100 * ((p.cash - p.monthly_deposit * (p.months : ℚ)) / p.initial_cash) /
    (100 * p.current_price / p.start_price) - 100

end Tester

/-! ### Concrete instances used by the witnesses and counterexamples -/

/-- The long position of the source's own test block:
`Position(LONG, 1000, 100, 0.05, 0.1, 5)`. -/
def demoPosition : Position := mkPosition true 1000 100 (5 / 100) (1 / 10) 5

/-- A small long position with bounds 95 and 110. -/
def pos1 : Position := mkPosition true 100 100 (5 / 100) (1 / 10) 1

/-- A portfolio holding two identically-parametrised open positions. -/
def pf1 : Portfolio := ⟨0, [pos1, pos1]⟩

/-- Concrete static parameters. -/
def sp0 : StaticParams := ⟨1000, 100, 5, 60⟩

/-- Concrete dynamic parameters. -/
def dp0 : DynamicParams := ⟨5 / 100, 1 / 10, 1 / 2⟩

/-- A concrete portfolio with 1000 cash and no open position. -/
def pf0 : Portfolio := ⟨1000, []⟩

/-- Static parameters with a cooldown of 2 ticks. -/
def spCd : StaticParams := ⟨1000, 100, 5, 2⟩

/-- Four flat ticks whose buy signal is always set. -/
def tsCd : List (ℚ × Bool × Bool) :=
  [(100, true, false), (100, true, false), (100, true, false), (100, true, false)]

/-- The initial simulation state over `spCd`. -/
def stCd : SimState := ⟨⟨1000, []⟩, 0⟩

/-- A tester portfolio holding only stock: 500 initial cash all
converted into 5 shares at price 100, no deposits, flat prices. -/
def tpf0 : Tester.Portfolio := ⟨500, 0, 5, 0, 0, 100, 100⟩

/-- A tester portfolio for the witness of the amended performance
formula. -/
def tpf1 : Tester.Portfolio := ⟨500, 300, 2, 3, 10, 100, 200⟩

/-! ### Helper lemmas -/

/-- Comparing anything against a missing value is false. -/
@[simp] theorem oLt_none_right (a : Option ℚ) : oLt a none = false := by
  cases a <;> rfl

/-- Comparing a missing value against anything is false. -/
@[simp] theorem oLt_none_left (b : Option ℚ) : oLt none b = false := by
  cases b <;> rfl

/-- A defined comparison that fails. -/
theorem oLt_some_false {x m : ℚ} (h : m ≤ x) : oLt (some x) (some m) = false := by
  simpa [oLt] using not_lt.2 h

@[simp] theorem oScale_none (c : ℚ) : oScale c none = none := rfl

@[simp] theorem oAdd_none_right (a : Option ℚ) : oAdd a none = none := by
  cases a <;> rfl

@[simp] theorem oSub_none_right (a : Option ℚ) : oSub a none = none := by
  cases a <;> rfl

/-- A rolling minimum is still missing while the window is short. -/
theorem rollMin_warm {w i : ℕ} (xs : List ℚ) (h : i + 1 < w) :
    rollMin w xs i = none := by
  unfold rollMin
  exact if_neg (by rintro ⟨h1, -⟩; omega)

/-- A rolling maximum is still missing while the window is short. -/
theorem rollMax_warm {w i : ℕ} (xs : List ℚ) (h : i + 1 < w) :
    rollMax w xs i = none := by
  unfold rollMax
  exact if_neg (by rintro ⟨h1, -⟩; omega)

/-- A rolling mean is still missing while the window is short. -/
theorem rollMean_warm {w i : ℕ} (xs : List ℚ) (h : i + 1 < w) :
    rollMean w xs i = none := by
  unfold rollMean
  exact if_neg (by rintro ⟨-, h2, -⟩; omega)

/-- A rolling standard deviation is still missing while the window is
short. -/
theorem rollStd_warm {w i : ℕ} (xs : List ℚ) (h : i + 1 < w) :
    rollStd w xs i = none := by
  unfold rollStd
  exact if_neg (by rintro ⟨-, h2, -⟩; omega)

/-- The head of a nonempty-window minimum bounds the window's last
sample. -/
theorem listMin_cons_le (x : ℚ) (t : List ℚ) (m : ℚ)
    (h : listMin (x :: t) = some m) : m ≤ x := by
  unfold listMin at h
  cases ht : listMin t with
  | none => rw [ht] at h; injection h with h; rw [← h]
  | some m' => rw [ht] at h; injection h with h; rw [← h]; exact min_le_left _ _

/-- The head of a nonempty-window maximum bounds the window's last
sample. -/
theorem listMax_ge_cons (x : ℚ) (t : List ℚ) (m : ℚ)
    (h : listMax (x :: t) = some m) : x ≤ m := by
  unfold listMax at h
  cases ht : listMax t with
  | none => rw [ht] at h; injection h with h; rw [← h]
  | some m' => rw [ht] at h; injection h with h; rw [← h]; exact le_max_left _ _

/-- A complete window starts with the sample at its own row. -/
theorem window_cons (xs : List ℚ) (i w : ℕ) (hi : i < xs.length) (hw : 1 ≤ w) :
    ∃ t, window w xs i = xs.get ⟨i, hi⟩ :: t := by
  obtain ⟨w', rfl⟩ : ∃ w', w = w' + 1 := ⟨w - 1, by omega⟩
  refine ⟨((xs.take i).reverse).take w', ?_⟩
  have htake : xs.take (i + 1) = xs.take i ++ [xs.get ⟨i, hi⟩] := by
    rw [List.take_succ]
    congr
    rw [← List.get?_eq_getElem?, List.get?_eq_get hi]
    rfl
  unfold window
  rw [htake, List.reverse_append]
  rfl

/-- Appending ticks runs the simulation in two stages. -/
theorem runSim_append (sp : StaticParams) (dp : DynamicParams)
    (l1 l2 : List (ℚ × Bool × Bool)) (st : SimState) :
    runSim sp dp (l1 ++ l2) st = runSim sp dp l2 (runSim sp dp l1 st) := by
  induction l1 generalizing st with
  | nil => rfl
  | cons t ts ih => simp [runSim, ih]

/-- The state entering tick `n + 1` is one step past the state entering
tick `n`. -/
theorem stateAt_succ (sp : StaticParams) (dp : DynamicParams)
    (ts : List (ℚ × Bool × Bool)) (st0 : SimState) (n : ℕ) (t : ℚ × Bool × Bool)
    (h : ts.get? n = some t) :
    stateAt sp dp ts st0 (n + 1) = simStep sp dp (stateAt sp dp ts st0 n) t := by
  have h' : ts[n]? = some t := by rwa [List.get?_eq_getElem?] at h
  unfold stateAt
  rw [List.take_succ, h', runSim_append]
  rfl

/-- With a running cooldown, a step only ticks the portfolio and
decrements the counter; the signals are not inspected. -/
theorem simStep_cooldown_pos (sp : StaticParams) (dp : DynamicParams)
    (st : SimState) (t : ℚ × Bool × Bool) (h : st.cooldown ≠ 0) :
    simStep sp dp st t = ⟨st.portfolio.tick t.1, st.cooldown - 1⟩ := by
  unfold simStep
  rw [if_neg h]

/-- After a tick entered with a zero cooldown, the counter counts
`trade_cooldown, trade_cooldown - 1, …` down the following ticks. -/
theorem cooldown_countdown (sp : StaticParams) (dp : DynamicParams)
    (ts : List (ℚ × Bool × Bool)) (st0 : SimState) (n : ℕ)
    (h0 : (stateAt sp dp ts st0 n).cooldown = 0) :
    ∀ k, 1 ≤ k → k ≤ sp.trade_cooldown → n + k ≤ ts.length →
      (stateAt sp dp ts st0 (n + k)).cooldown = sp.trade_cooldown - (k - 1) := by
  intro k
  induction k with
  | zero => intro h1 _ _; exact absurd h1 (by omega)
  | succ k ih =>
    intro _ h2 h3
    have hget : ts.get? (n + k) = some (ts.get ⟨n + k, by omega⟩) :=
      List.get?_eq_get (by omega)
    rcases Nat.eq_zero_or_pos k with hk | hk
    · subst hk
      simp only [Nat.zero_add, Nat.add_zero] at hget ⊢
      rw [stateAt_succ sp dp ts st0 n _ hget]
      unfold simStep
      rw [if_pos h0]
      show sp.trade_cooldown = sp.trade_cooldown - (1 - 1)
      omega
    · have hc := ih hk (by omega) (by omega)
      rw [show n + (k + 1) = (n + k) + 1 by omega,
        stateAt_succ sp dp ts st0 (n + k) _ hget,
        simStep_cooldown_pos sp dp _ _ (by omega)]
      simp only [hc]
      omega

/-! ### The claims -/

/-- C1: at a price that closes two adjacent positions at once,
`Portfolio.tick` removes only the first and credits its value once; the
second stays in the list although its own close condition is met. The
removal inside the iteration shifts the list under the advancing index,
so the spec's "all closing positions are removed" fails. -/
theorem tick_skips_simultaneous_close :
    (pf1.tick 111).cash = 111 ∧
    (pf1.tick 111).positions = [pos1] ∧
    pos1.try_close 111 = some 111 := by
  refine ⟨?_, ?_, ?_⟩ <;>
    norm_num [Portfolio.tick, tickAux, pf1, pos1, mkPosition, Position.try_close]

/-- C2: `try_close(price)` is `None` exactly while the price is strictly
between the bounds, otherwise it returns
`initial_margin + size * ((price - open_price) / open_price) * (±1)`;
the spec's three worked examples for the long demo position evaluate as
stated. -/
theorem try_close_spec (pos : Position) (price : ℚ) (hop : pos.open_price ≠ 0) :
    (pos.try_close price = none ↔
      pos.lower_bound_price < price ∧ price < pos.upper_bound_price) ∧
    (¬(pos.lower_bound_price < price ∧ price < pos.upper_bound_price) →
      pos.try_close price =
        some (pos.initial_margin +
          pos.size * ((price - pos.open_price) / pos.open_price) *
            (if pos.is_long then 1 else -1))) ∧
    demoPosition.try_close 105 = none ∧
    demoPosition.try_close 111 = some 1550 ∧
    demoPosition.try_close 94 = some 700 := by
  refine ⟨?_, ?_, ?_, ?_, ?_⟩
  · unfold Position.try_close
    by_cases h : pos.lower_bound_price < price ∧ price < pos.upper_bound_price
    · rw [if_pos h]; simpa using h
    · rw [if_neg h]; simpa using h
  · intro h
    unfold Position.try_close
    rw [if_neg h]
  · norm_num [demoPosition, mkPosition, Position.try_close]
  · norm_num [demoPosition, mkPosition, Position.try_close]
  · norm_num [demoPosition, mkPosition, Position.try_close]

/-- C2 witness: the demo position outside its bounds at price 111
realizes exactly the claimed formula. -/
theorem try_close_spec_witness :
    demoPosition.try_close 111 =
      some (demoPosition.initial_margin +
        demoPosition.size * ((111 - demoPosition.open_price) / demoPosition.open_price) *
          (if demoPosition.is_long then 1 else -1)) :=
  (try_close_spec demoPosition 111 (by norm_num [demoPosition, mkPosition])).2.1
    (by norm_num [demoPosition, mkPosition])

/-- C3: the source scales the upper Bollinger band by
`lower_band_multiplier` and the lower band by `upper_band_multiplier`;
with multipliers 0 and 10 on prices `[0, 1, 2]` the code's sell signal
fires at index 2 while the band the spec (and the field names) describe
would not fire. -/
theorem bb_multiplier_swap :
    (BollingerBands.mk 3 3 0 10).sellAt [0, 1, 2] 2 = true ∧
    (BollingerBands.mk 3 3 0 10).sellAtSpec [0, 1, 2] 2 = false := by
  constructor
  · norm_num [BollingerBands.sellAt, BollingerBands.upperBand, oGt, oLt, oAdd,
      oScale, emaAt, emaList, emaFrom, alphaOf, rollStd, window, sampleVar, sqrtQ]
  · norm_num [BollingerBands.sellAtSpec, BollingerBands.upperBandSpec, oGt, oLt,
      oAdd, oScale, emaAt, emaList, emaFrom, alphaOf, rollStd, window, sampleVar,
      sqrtQ]

/-- C4 counterexample: MACD(2, 4, 3) on the two-tick series `[1, 2]`
already fires a buy signal at index 1, although
`1 < max(windows) - 1 = 3`; likewise BollingerBands(3, 10, 0, 0) on
`[2, 1, 0]` fires its buy signal at index 2, although
`2 < max(windows) - 1 = 9`: the claim's `max(windows) - 1` warm-up
guarantee fails for MACD and for BollingerBands with unequal windows. -/
theorem signals_fire_before_warmup :
    ((MACD.mk 2 4 3).buyAt [1, 2] 1 = true ∧ 1 < max (max 2 4) 3 - 1) ∧
    ((BollingerBands.mk 3 10 0 0).buyAt [2, 1, 0] 2 = true ∧
      2 < max 3 10 - 1) := by
  refine ⟨⟨?_, by decide⟩, ⟨?_, by decide⟩⟩
  · norm_num [MACD.buyAt, MACD.macdList, MACD.signalList, emaList, emaFrom,
      alphaOf, oGt, oLt]
  · norm_num [BollingerBands.buyAt, BollingerBands.lowerBand, oLt, oSub,
      oScale, emaAt, emaList, emaFrom, alphaOf, rollStd, window, sampleVar,
      sqrtQ]

/-- C4 (amended): for MinMax, BollingerBands and RSI every signal is
false at each index below `min(that indicator's windows) - 1`, on every
price series (insufficient history yields false, never an error); MACD,
whose EMAs are defined from the first sample, carries no such
guarantee. -/
theorem warmup_signals_false (prices : List ℚ) (mm : MinMax) (bb : BollingerBands)
    (rc : RSI) (i : ℕ)
    (hmm : i < min mm.buy_window mm.sell_window - 1)
    (hbb : i < min bb.buy_window bb.sell_window - 1)
    (hr : i < rc.window - 1) :
    mm.buyAt prices i = false ∧ mm.sellAt prices i = false ∧
    bb.buyAt prices i = false ∧ bb.sellAt prices i = false ∧
    rc.buyAt prices i = false ∧ rc.sellAt prices i = false := by
  have hnan : rc.rsiAt prices i = FVal.nan := by
    unfold RSI.rsiAt
    rw [rollMean_warm (gains prices) (by omega)]
    rfl
  refine ⟨?_, ?_, ?_, ?_, ?_, ?_⟩
  · unfold MinMax.buyAt
    rw [rollMin_warm prices (by omega)]
    exact oLt_none_right _
  · unfold MinMax.sellAt oGt
    rw [rollMax_warm prices (by omega)]
    exact oLt_none_left _
  · unfold BollingerBands.buyAt BollingerBands.lowerBand
    rw [rollStd_warm prices (by omega)]
    simp
  · unfold BollingerBands.sellAt oGt BollingerBands.upperBand
    rw [rollStd_warm prices (by omega)]
    simp
  · unfold RSI.buyAt
    rw [hnan]
    rfl
  · unfold RSI.sellAt
    rw [hnan]
    rfl

/-- C4 witness: on the three-tick series `[1, 2, 3]` with all windows 3,
every MinMax, BollingerBands and RSI signal at index 0 is false. -/
theorem warmup_signals_false_witness :
    (MinMax.mk 3 3).buyAt [1, 2, 3] 0 = false ∧
    (MinMax.mk 3 3).sellAt [1, 2, 3] 0 = false ∧
    (BollingerBands.mk 3 3 1 1).buyAt [1, 2, 3] 0 = false ∧
    (BollingerBands.mk 3 3 1 1).sellAt [1, 2, 3] 0 = false ∧
    (RSI.mk 3 30 70).buyAt [1, 2, 3] 0 = false ∧
    (RSI.mk 3 30 70).sellAt [1, 2, 3] 0 = false :=
  warmup_signals_false [1, 2, 3] (MinMax.mk 3 3) (BollingerBands.mk 3 3 1 1)
    (RSI.mk 3 30 70) 0 (by decide) (by decide) (by decide)

/-- C5 counterexample: a portfolio whose 500 initial cash is fully
converted into stock at a flat price has a code performance of 0 (it
matches buy-and-hold), while the claim's literal formula yields -100. -/
theorem performance_claim_formula_differs :
    Tester.Portfolio.performance tpf0 = 0 ∧
    Tester.Portfolio.performanceClaim tpf0 = -100 := by
  constructor
  · norm_num [Tester.Portfolio.performance, tpf0]
  · norm_num [Tester.Portfolio.performanceClaim, tpf0]

/-- C5 (amended): the reported performance equals
`100 * profit_pct / baseline_pct - 100` with
`profit_pct = 100 * (cash + stock * current_price - monthly_deposit * months) / initial_cash`
and `baseline_pct = 100 * current_price / start_price`; equivalently,
for nonzero initial cash and prices, it is
`100 * (final_total_value_adjusted_for_deposits / initial_cash) *
(first_price / last_price) - 100`. -/
theorem performance_spec (p : Tester.Portfolio)
    (hi : p.initial_cash ≠ 0) (hs : p.start_price ≠ 0) (hc : p.current_price ≠ 0) :
    p.performance =
      100 * ((p.cash + p.stock * p.current_price -
        p.monthly_deposit * (p.months : ℚ)) / p.initial_cash) *
        (p.start_price / p.current_price) - 100 := by
  unfold Tester.Portfolio.performance
  field_simp
  ring

/-- C5 witness: the amended formula evaluated on a concrete mixed
portfolio. -/
theorem performance_spec_witness :
    tpf1.performance =
      100 * ((tpf1.cash + tpf1.stock * tpf1.current_price -
        tpf1.monthly_deposit * (tpf1.months : ℚ)) / tpf1.initial_cash) *
        (tpf1.start_price / tpf1.current_price) - 100 :=
  performance_spec tpf1 (by norm_num [tpf1]) (by norm_num [tpf1])
    (by norm_num [tpf1])

/-- C6: a freshly created position has the claimed bounds (stop-loss and
take-profit roles inverted for shorts), its open price strictly between
them, and size equal to margin times leverage. -/
theorem mkPosition_spec (is_long : Bool) (p s t m : ℚ) (l : ℤ)
    (hp : 0 < p) (hs0 : 0 < s) (hs1 : s < 1) (ht : 0 < t) (hm : 0 < m)
    (hl : 1 ≤ l) :
    (mkPosition is_long m p s t l).upper_bound_price =
      p * (1 + (if is_long then t else s)) ∧
    (mkPosition is_long m p s t l).lower_bound_price =
      p * (1 - (if is_long then s else t)) ∧
    (mkPosition is_long m p s t l).lower_bound_price < p ∧
    p < (mkPosition is_long m p s t l).upper_bound_price ∧
    (mkPosition is_long m p s t l).size = m * (l : ℚ) := by
  refine ⟨rfl, rfl, ?_, ?_, rfl⟩
  · cases is_long <;> simp [mkPosition] <;> nlinarith
  · cases is_long <;> simp [mkPosition] <;> nlinarith

/-- C6 witness: the demo position's bounds, invariant and size at
concrete parameters. -/
theorem mkPosition_spec_witness :
    (mkPosition true 1000 100 (5 / 100) (1 / 10) 5).upper_bound_price =
      100 * (1 + (if true then (1 / 10 : ℚ) else 5 / 100)) ∧
    (mkPosition true 1000 100 (5 / 100) (1 / 10) 5).lower_bound_price =
      100 * (1 - (if true then (5 / 100 : ℚ) else 1 / 10)) ∧
    (mkPosition true 1000 100 (5 / 100) (1 / 10) 5).lower_bound_price < 100 ∧
    (100 : ℚ) < (mkPosition true 1000 100 (5 / 100) (1 / 10) 5).upper_bound_price ∧
    (mkPosition true 1000 100 (5 / 100) (1 / 10) 5).size = 1000 * ((5 : ℤ) : ℚ) :=
  mkPosition_spec true 100 (5 / 100) (1 / 10) 1000 5 (by norm_num) (by norm_num)
    (by norm_num) (by norm_num) (by norm_num) (by norm_num)

/-- C7: `open_position` is a no-op at or below the cash floor; above it,
it subtracts exactly the committed margin `investment_pct * cash` from
cash, appends exactly the one new position carrying that margin, and
(for a positive investment fraction and a nonnegative floor) strictly
decreases cash. -/
theorem open_position_spec (pf : Portfolio) (sp : StaticParams) (dp : DynamicParams)
    (il : Bool) (price : ℚ) :
    (pf.cash ≤ sp.min_cash → pf.open_position sp dp il price = pf) ∧
    (sp.min_cash < pf.cash →
      (pf.open_position sp dp il price).cash =
        pf.cash - pf.cash * dp.investment_pct ∧
      (pf.open_position sp dp il price).positions =
        pf.positions ++ [mkPosition il (pf.cash * dp.investment_pct) price
          dp.stop_loss_pct dp.take_profit_pct sp.leverage] ∧
      (pf.open_position sp dp il price).positions.length =
        pf.positions.length + 1 ∧
      (0 < dp.investment_pct → 0 ≤ sp.min_cash →
        (pf.open_position sp dp il price).cash < pf.cash)) := by
  constructor
  · intro h
    unfold Portfolio.open_position
    rw [if_pos h]
  · intro h
    have hn : ¬ pf.cash ≤ sp.min_cash := not_le.2 h
    unfold Portfolio.open_position
    rw [if_neg hn]
    refine ⟨rfl, rfl, by simp, ?_⟩
    intro hip hmc
    have hc : 0 < pf.cash := lt_of_le_of_lt hmc h
    have := mul_pos hc hip
    simpa using this

/-- C7 witness: opening a long on a 1000-cash portfolio above the
100-cash floor halves the cash and appends one position. -/
theorem open_position_spec_witness :
    (pf0.open_position sp0 dp0 true 100).cash =
      pf0.cash - pf0.cash * dp0.investment_pct ∧
    (pf0.open_position sp0 dp0 true 100).positions.length =
      pf0.positions.length + 1 ∧
    (pf0.open_position sp0 dp0 true 100).cash < pf0.cash := by
  have h := (open_position_spec pf0 sp0 dp0 true 100).2 (by norm_num [sp0, pf0])
  exact ⟨h.1, h.2.2.1, h.2.2.2 (by norm_num [dp0]) (by norm_num [sp0])⟩

/-- C8 counterexample: on the flat series `[5, 5, 5]` with window 2 the
trailing average loss at index 1 is zero, yet the RSI value is NaN (the
0/0 division), not 100, and the sell signal stays false although the
threshold 70 is below 100. -/
theorem rsi_flat_series_nan :
    rollMean 2 (losses [5, 5, 5]) 1 = some 0 ∧
    (RSI.mk 2 30 70).rsiAt [5, 5, 5] 1 = FVal.nan ∧
    (RSI.mk 2 30 70).sellAt [5, 5, 5] 1 = false ∧ ((70 : ℚ) < 100) := by
  refine ⟨?_, ?_, ?_, by norm_num⟩ <;>
    norm_num [RSI.sellAt, RSI.rsiAt, rollMean, gains, losses, diffList, window,
      oSub, oDivF, FVal.fdiv, FVal.fadd, FVal.fsub, FVal.fneg, FVal.fLt,
      List.range_succ]

/-- C8 (amended): wherever the trailing average loss is zero and the
trailing average gain is positive, the RSI value is exactly 100 and the
sell signal fires iff the sell threshold is below 100; when the average
gain is zero as well, the value is NaN (see the counterexample). -/
theorem rsi_avg_loss_zero (rc : RSI) (prices : List ℚ) (i : ℕ) (g : ℚ)
    (hl : rollMean rc.window (losses prices) i = some 0)
    (hg : rollMean rc.window (gains prices) i = some g)
    (hgpos : 0 < g) :
    rc.rsiAt prices i = FVal.val 100 ∧
    (rc.sellAt prices i = true ↔ rc.sell_threshold < 100) := by
  have hdiv : oDivF (some g) (some 0) = FVal.inf := by
    show (if (0 : ℚ) = 0 then
        (if 0 < g then FVal.inf else if g < 0 then FVal.ninf else FVal.nan)
      else FVal.val (g / 0)) = FVal.inf
    rw [if_pos rfl, if_pos hgpos]
  have hrsi : rc.rsiAt prices i = FVal.val 100 := by
    unfold RSI.rsiAt
    rw [hl, hg, hdiv]
    show FVal.val (100 + -0) = FVal.val 100
    norm_num
  refine ⟨hrsi, ?_⟩
  unfold RSI.sellAt
  rw [hrsi]
  show decide (rc.sell_threshold < 100) = true ↔ rc.sell_threshold < 100
  exact decide_eq_true_iff

/-- C8 witness: on the rising series `[1, 2, 3]` with window 2 the
average loss at index 2 is zero, the average gain is 1, the RSI value is
exactly 100 and the sell signal fires for the threshold 70. -/
theorem rsi_avg_loss_zero_witness :
    (RSI.mk 2 30 70).rsiAt [1, 2, 3] 2 = FVal.val 100 ∧
    ((RSI.mk 2 30 70).sellAt [1, 2, 3] 2 = true ↔
      (RSI.mk 2 30 70).sell_threshold < 100) :=
  rsi_avg_loss_zero (RSI.mk 2 30 70) [1, 2, 3] 2 1
    (by norm_num [rollMean, losses, diffList, window, oSub, List.range_succ])
    (by norm_num [rollMean, gains, diffList, window, oSub, List.range_succ])
    (by norm_num)

/-- C9: signals are inspected only at ticks entered with a zero
cooldown; after such a tick the counter reads
`trade_cooldown - (k - 1) > 0` on the `k`-th following tick for
`1 ≤ k ≤ trade_cooldown`, each of those ticks leaves the portfolio
exactly as `tick` (position closing) does — no position is opened
regardless of the signals — and a step entered with a nonzero cooldown
ignores the signal columns entirely. -/
theorem cooldown_spec (sp : StaticParams) (dp : DynamicParams)
    (ts : List (ℚ × Bool × Bool)) (st0 : SimState) (n k : ℕ)
    (h0 : (stateAt sp dp ts st0 n).cooldown = 0)
    (hk1 : 1 ≤ k) (hk2 : k ≤ sp.trade_cooldown) (hlen : n + k < ts.length) :
    ((stateAt sp dp ts st0 (n + k)).cooldown = sp.trade_cooldown - (k - 1) ∧
      0 < (stateAt sp dp ts st0 (n + k)).cooldown) ∧
    (∀ t, ts.get? (n + k) = some t →
      (stateAt sp dp ts st0 (n + k + 1)).portfolio =
        (stateAt sp dp ts st0 (n + k)).portfolio.tick t.1) ∧
    (∀ st : SimState, ∀ t : ℚ × Bool × Bool, st.cooldown ≠ 0 →
      simStep sp dp st t = ⟨st.portfolio.tick t.1, st.cooldown - 1⟩) := by
  have hc := cooldown_countdown sp dp ts st0 n h0 k hk1 hk2 (by omega)
  have hpos : 0 < (stateAt sp dp ts st0 (n + k)).cooldown := by
    rw [hc]; omega
  refine ⟨⟨hc, hpos⟩, ?_, fun st t h => simStep_cooldown_pos sp dp st t h⟩
  intro t ht
  rw [stateAt_succ sp dp ts st0 (n + k) t ht,
    simStep_cooldown_pos sp dp _ t (by omega)]

/-- C9 witness: with a 2-tick cooldown over four flat always-buy ticks,
the tick after the first signal inspection has its counter at 2 and only
closes positions. -/
theorem cooldown_spec_witness :
    ((stateAt spCd dp0 tsCd stCd 1).cooldown = spCd.trade_cooldown - 0 ∧
      0 < (stateAt spCd dp0 tsCd stCd 1).cooldown) ∧
    (∀ t, tsCd.get? 1 = some t →
      (stateAt spCd dp0 tsCd stCd 2).portfolio =
        (stateAt spCd dp0 tsCd stCd 1).portfolio.tick t.1) ∧
    (∀ st : SimState, ∀ t : ℚ × Bool × Bool, st.cooldown ≠ 0 →
      simStep spCd dp0 st t = ⟨st.portfolio.tick t.1, st.cooldown - 1⟩) :=
  cooldown_spec spCd dp0 tsCd stCd 0 1 rfl (by decide) (by decide) (by decide)

/-- C10: the MinMax indicator compares each close strictly against a
rolling minimum (resp. maximum) whose window contains that very close,
so neither signal can ever fire, at any index of any series. -/
theorem minmax_signals_never_fire (mm : MinMax) (prices : List ℚ) (i : ℕ)
    (hb : 1 ≤ mm.buy_window) (hs : 1 ≤ mm.sell_window) :
    mm.buyAt prices i = false ∧ mm.sellAt prices i = false := by
  constructor
  · unfold MinMax.buyAt rollMin
    by_cases h : mm.buy_window ≤ i + 1 ∧ i < prices.length
    · rw [if_pos h]
      obtain ⟨t, ht⟩ := window_cons prices i mm.buy_window h.2 hb
      rw [ht, List.get?_eq_get h.2]
      rcases hm : listMin (prices.get ⟨i, h.2⟩ :: t) with _ | m
      · exact oLt_none_right _
      · exact oLt_some_false (listMin_cons_le _ _ _ hm)
    · rw [if_neg h]
      exact oLt_none_right _
  · unfold MinMax.sellAt oGt rollMax
    by_cases h : mm.sell_window ≤ i + 1 ∧ i < prices.length
    · rw [if_pos h]
      obtain ⟨t, ht⟩ := window_cons prices i mm.sell_window h.2 hs
      rw [ht, List.get?_eq_get h.2]
      rcases hm : listMax (prices.get ⟨i, h.2⟩ :: t) with _ | m
      · exact oLt_none_left _
      · exact oLt_some_false (listMax_ge_cons _ _ _ hm)
    · rw [if_neg h]
      exact oLt_none_left _

/-- C10 witness: on the strictly falling series `[3, 2, 1]` with both
windows 1 the MinMax signals at index 1 are still false. -/
theorem minmax_signals_never_fire_witness :
    (MinMax.mk 1 1).buyAt [3, 2, 1] 1 = false ∧
    (MinMax.mk 1 1).sellAt [3, 2, 1] 1 = false :=
  minmax_signals_never_fire (MinMax.mk 1 1) [3, 2, 1] 1 (by decide) (by decide)

end StockCheck
